import Mathlib

set_option maxRecDepth 4000

/-!
Verification of the analysis core of the stock-dashboard repository
(`sentiment_analysis.py`): news aggregation and deduplication, the
price/sentiment correlation pipeline, the ARIMA trend-corrected forecaster
and the Monte-Carlo GBM simulator.

Modelling conventions:
* Python floats are modelled as `ℚ`.  The external library functions
  `np.exp`, `np.log1p`, `np.sqrt` and the VADER sentiment scorer are passed
  in as explicit function parameters (the program treats them as black
  boxes; the theorems only use their values or standard order facts stated
  as hypotheses).
* Timestamps are modelled as integers (`ℤ`), one unit per day; `now` is an
  explicit parameter.  Comparisons on these never raise, which matches the
  non-raising path of the Python code.
* `numpy` arrays are modelled as Lists (or index functions `ℕ → ℚ` for
  elementwise formulas, with 0-based positions).
-/

namespace SentimentAnalysis

/-- `PERIOD_DAYS_MAP` from the source: maps a period code to a number of
days. -/
def periodDaysMap : List (String × Nat) :=
  [("1d", 1), ("5d", 7), ("1mo", 30), ("3mo", 90),
   ("6mo", 180), ("1y", 365), ("5y", 1825)]

/-- Number of days used by `get_cutoff_date`:
`PERIOD_DAYS_MAP.get(period, 30)` (default 30). -/
def getCutoffDays (period : String) : Nat :=
  (periodDaysMap.lookup period).getD 30

/-- `get_cutoff_date(period)` = `datetime.now() - timedelta(days=days_back)`,
with `now` an explicit integer timestamp parameter. -/
def get_cutoff_date (now : Int) (period : String) : Int :=
  now - (getCutoffDays period : Int)

/-- The `days_back` computed inside `analyze_correlation`:
`PERIOD_DAYS_MAP.get(period, 90)` (default 90, unlike `get_cutoff_date`). -/
def correlationDaysBack (period : String) : Nat :=
  (periodDaysMap.lookup period).getD 90

/-! ## News aggregation (`fetch_news_from_feeds`) -/

/-- A parsed RSS feed item as produced by `parse_feed_item`: a title and a
publish timestamp (already normalized to timezone-naive). -/
structure FeedItem where
  title : String
  date  : Int
deriving DecidableEq, Repr

/-- An accepted news entry as appended to `all_news_items` (the
display-only `date` string, `source` decoration and `feed_source` fields of
the Python dict are not modelled; the per-feed source summary returned
alongside the list is likewise display-only and not modelled). -/
structure NewsItem where
  title : String
  date  : Int
  score : Rat
deriving DecidableEq, Repr

/-- The duplicate hash used by `fetch_news_from_feeds`:
`parsed["title"].lower()[:60]` — the lowercased title truncated to its
first 60 characters (written on the character list, which is what
`String.toLower` and `String.take` compute). -/
def titleHash (t : String) : String :=
  String.mk ((t.data.map Char.toLower).take 60)

/-- Python's `pat in s` substring test (for the nonempty search terms the
code builds from the symbol and company name). -/
def containsSub (s pat : String) : Bool :=
  (s.splitOn pat).length > 1

/-- Accumulator state of the two feed loops: the set of seen title hashes
(`seen_titles`) and the accepted items (`all_news_items`). -/
structure FetchState where
  seen : List String
  acc  : List NewsItem
deriving Repr

/-- One iteration of the symbol-templated feed loop: skip titles shorter
than 10 characters; skip already-seen 60-char lowercase title prefixes
(registering the hash BEFORE the recency filter runs); skip items older
than the cutoff; otherwise score and append. -/
def processTemplatedItem (score : String → Rat) (cutoff : Int)
    (st : FetchState) (it : FeedItem) : FetchState :=
  if it.title.length < 10 then st
  else
    let h := titleHash it.title
    if h ∈ st.seen then st
    else
      let seen' := h :: st.seen
      if it.date < cutoff then { st with seen := seen' }
      else { seen := seen',
             acc := st.acc ++ [{ title := it.title, date := it.date,
                                 score := score it.title }] }

/-- One iteration of the static-feed loop: skip empty titles; require the
symbol or company name to occur in the uppercased title; then the same
duplicate check (again registered before the recency filter) and cutoff
filter as the templated loop. -/
def processStaticItem (score : String → Rat) (terms : List String)
    (cutoff : Int) (st : FetchState) (it : FeedItem) : FetchState :=
  if it.title = "" then st
  else if ¬ (terms.any fun t => containsSub it.title.toUpper t) then st
  else
    let h := titleHash it.title
    if h ∈ st.seen then st
    else
      let seen' := h :: st.seen
      if it.date < cutoff then { st with seen := seen' }
      else { seen := seen',
             acc := st.acc ++ [{ title := it.title, date := it.date,
                                 score := score it.title }] }

/-- Both feed loops of `fetch_news_from_feeds`, run over the parsed items
of each templated feed then of each static feed, threading `seen_titles`
and `all_news_items`. -/
def fetchAccum (score : String → Rat) (cutoff : Int)
    (templated : List (List FeedItem)) (statics : List (List FeedItem))
    (terms : List String) : FetchState :=
  let st1 := templated.foldl
    (fun st items => items.foldl (processTemplatedItem score cutoff) st)
    ⟨[], []⟩
  statics.foldl
    (fun st items => items.foldl (processStaticItem score terms cutoff) st)
    st1

/-- Stable insertion (descending by date) used to model Python's stable
`list.sort(key=..., reverse=True)`. -/
def insertDesc (x : NewsItem) : List NewsItem → List NewsItem
  | [] => [x]
  | y :: ys => if x.date < y.date then y :: insertDesc x ys else x :: y :: ys

/-- `all_news_items.sort(key=lambda x: x["date_obj"], reverse=True)`:
stable sort, newest first. -/
def sortByDateDesc (l : List NewsItem) : List NewsItem :=
  l.foldr insertDesc []

/-- `fetch_news_from_feeds(symbol, period, news_limit)`: run both feed
loops, sort accepted items newest-first, truncate to the limit.  The feeds'
parsed items, the search terms and `now` are explicit parameters. -/
def fetch_news_from_feeds (score : String → Rat) (now : Int) (period : String)
    (newsLimit : Nat) (templated : List (List FeedItem))
    (statics : List (List FeedItem)) (terms : List String) : List NewsItem :=
  let cutoff := get_cutoff_date now period
  let st := fetchAccum score cutoff templated statics terms
  (sortByDateDesc st.acc).take newsLimit

/-! ## Correlation pipeline (`analyze_correlation`) -/

/-- Upsert one news item into the running per-date (sum, count) table; used
to model `news_df.groupby(date)["score"].mean()` (whose keys are unique). -/
def upsertDay (tbl : List (Int × Rat × Nat)) (d : Int) (s : Rat) :
    List (Int × Rat × Nat) :=
  match tbl with
  | [] => [(d, s, 1)]
  | (d', sum, cnt) :: rest =>
      if d' = d then (d', sum + s, cnt + 1) :: rest
      else (d', sum, cnt) :: upsertDay rest d s

/-- `sentiment_daily`: mean sentiment score per calendar date.  Keys are
unique by construction, as with pandas `groupby`. -/
def dailySentiment (news : List NewsItem) : List (Int × Rat) :=
  (news.foldl (fun tbl n => upsertDay tbl n.date n.score) []).map
    (fun e => (e.1, e.2.1 / (e.2.2 : Rat)))

/-- The sentiment column of
`pd.merge(price_df, sentiment_daily, on="date", how="left")`: one row per
price date, `none` (NaN) where no sentiment exists for that date.  (A left
join preserves the left row count because the groupby output has unique
keys.) -/
def mergeSentimentColumn (prices : List (Int × Rat))
    (sd : List (Int × Rat)) : List (Option Rat) :=
  prices.map fun pr => sd.lookup pr.1

/-- Position of the nearest non-missing value strictly before index `i`,
with its value. -/
def prevKnown (xs : List (Option Rat)) : Nat → Option (Nat × Rat)
  | 0 => none
  | j + 1 =>
    match xs[j]? with
    | some (some v) => some (j, v)
    | _ => prevKnown xs j

/-- First non-missing value of a list, with its position. -/
def firstKnown : List (Option Rat) → Option (Nat × Rat)
  | [] => none
  | some v :: _ => some (0, v)
  | none :: rest => (firstKnown rest).map fun e => (e.1 + 1, e.2)

/-- Position of the nearest non-missing value strictly after index `i`,
with its value. -/
def nextKnown (xs : List (Option Rat)) (i : Nat) : Option (Nat × Rat) :=
  (firstKnown (xs.drop (i + 1))).map fun e => (i + 1 + e.1, e.2)

/-- Value at position `i` after pandas
`interpolate(method="linear")` (default `limit_direction="forward"`):
known values are kept; a missing value between two known ones is linearly
interpolated by position; a missing value after the last known one is
filled with that last known value (np.interp clamps, it does not
extrapolate); a missing value before the first known one stays missing. -/
def interpAt (xs : List (Option Rat)) (i : Nat) : Option Rat :=
  match xs[i]? with
  | some (some v) => some v
  | some none =>
    match prevKnown xs i, nextKnown xs i with
    | some jv, some kv =>
        some (jv.2 + (kv.2 - jv.2) * ((i : Rat) - (jv.1 : Rat)) /
          ((kv.1 : Rat) - (jv.1 : Rat)))
    | some jv, none => some jv.2
    | none, _ => none
  | none => none

/-- `Series.interpolate(method="linear")` applied to the merged sentiment
column. -/
def interpolateLinear (xs : List (Option Rat)) : List (Option Rat) :=
  (List.range xs.length).map (interpAt xs)

/-- `.fillna(0)` after interpolation: the only still-missing values (those
before the first known one) become 0. -/
def fillna0 (xs : List (Option Rat)) : List Rat :=
  xs.map fun o => o.getD 0

/-- The final merged sentiment series of `analyze_correlation`:
`merged_df["sentiment"] = merged_df["sentiment"].interpolate(method="linear").fillna(0)`. -/
def mergedSentiment (prices : List (Int × Rat)) (sd : List (Int × Rat)) :
    List Rat :=
  fillna0 (interpolateLinear (mergeSentimentColumn prices sd))

/-- What the spec's words describe for the merged sentiment series:
missing values are filled by linear interpolation BETWEEN two known points
only, and any still-missing value at either boundary (no known point on
one side) is filled with 0.  Stated separately from the code's behaviour
(`mergedSentiment`) to compare the two. -/
def interpAtSpecZeroBoundary (xs : List (Option Rat)) (i : Nat) : Rat :=
  match xs[i]? with
  | some (some v) => v
  | _ =>
    match prevKnown xs i, nextKnown xs i with
    | some jv, some kv =>
        jv.2 + (kv.2 - jv.2) * ((i : Rat) - (jv.1 : Rat)) /
          ((kv.1 : Rat) - (jv.1 : Rat))
    | _, _ => 0

/-- The spec-described merged sentiment series (boundary gaps zero-filled
on both sides). -/
def mergedSentimentSpecZeroBoundary (prices : List (Int × Rat))
    (sd : List (Int × Rat)) : List Rat :=
  (List.range (mergeSentimentColumn prices sd).length).map
    (interpAtSpecZeroBoundary (mergeSentimentColumn prices sd))

/-- Error cases of `analyze_correlation` (the code returns
`{"error": message}` dictionaries; the constructors model which message). -/
inductive CorrError where
  /-- "vaderSentiment nicht installiert" -/
  | vaderMissing : CorrError
  /-- "Zu wenige News ... (n Artikel). Versuchen Sie einen längeren
  Zeitraum." — carries the article count. -/
  | tooFewNews (found : Nat) : CorrError
  /-- "Keine Kursdaten ... verfügbar." -/
  | noPriceData : CorrError
deriving DecidableEq, Repr

/-- Success payload of `analyze_correlation`: correlation value, merged
series, and the summary stats relevant to the claims. -/
structure CorrResult where
  correlation : Rat
  mergedSent  : List Rat
  newsCount   : Nat
  daysBack    : Nat
  startPrice  : Rat
  endPrice    : Rat
deriving DecidableEq, Repr

/-- `analyze_correlation(symbol, period, news_limit)` beyond the fetch:
the fetched news list and price series are explicit parameters, as is the
pandas `Series.corr` computation (`corrFn`, an external library routine).
Control flow follows the source: VADER check, minimum of 5 news items,
non-empty price data, then the merge/interpolation and summary stats. -/
def analyze_correlation (corrFn : List Rat → List Rat → Rat) (vader : Bool)
    (news : List NewsItem) (prices : List (Int × Rat)) (period : String) :
    Except CorrError CorrResult :=
  if ¬ vader then .error .vaderMissing
  else
    let daysBack := correlationDaysBack period
    if news.length < 5 then .error (.tooFewNews news.length)
    else if prices = [] then .error .noPriceData
    else
      let sd := dailySentiment news
      let sent := mergedSentiment prices sd
      .ok { correlation := corrFn (prices.map Prod.snd) sent
            mergedSent := sent
            newsCount := news.length
            daysBack := daysBack
            startPrice := (prices.map Prod.snd).headD 0
            endPrice := (prices.map Prod.snd).getLastD 0 }

/-! ## ARIMA forecaster (`analyze_forecast`), steps 5–7

The fitted ARIMA model is an external library object; its raw point
forecast enters as an index function `arima : ℕ → ℚ` (0-based positions
over `forecast_days` entries), and its residual standard deviation, the
daily drift/volatility of the log-returns and the current price enter as
rational parameters.  `np.exp`, `np.log1p` and the constant
`np.sqrt(252)` are the parameters `rexp`, `rlog1p`, `sqrt252`. -/

/-- `trend_weight = min(0.7, forecast_days / 1825)`. -/
def trendWeight (forecastDays : Nat) : Rat :=
  min (7/10) ((forecastDays : Rat) / 1825)

/-- The pure-drift projection `trend_forecast`:
`trend_forecast[0] = current_price`,
`trend_forecast[t] = trend_forecast[t-1] * np.exp(daily_drift)`. -/
def trendForecast (rexp : Rat → Rat) (dailyDrift currentPrice : Rat) :
    Nat → Rat
  | 0 => currentPrice
  | t + 1 => trendForecast rexp dailyDrift currentPrice t * rexp dailyDrift

/-- `forecast_mean` after the trend-correction step: for horizons over 90
days a weighted blend of the raw ARIMA forecast and the drift projection,
otherwise the raw ARIMA forecast itself. -/
def blendedForecast (rexp : Rat → Rat) (arima : Nat → Rat)
    (dailyDrift currentPrice : Rat) (forecastDays : Nat) (t : Nat) : Rat :=
  if 90 < forecastDays then
    (1 - trendWeight forecastDays) * arima t +
      trendWeight forecastDays * trendForecast rexp dailyDrift currentPrice t
  else arima t

/-- Position `t` (0-based) of `forecast_mean` after the final clamp
`forecast_mean = np.maximum(forecast_mean, current_price * 0.05)`. -/
def pointForecast (rexp : Rat → Rat) (arima : Nat → Rat)
    (dailyDrift currentPrice : Rat) (forecastDays : Nat) (t : Nat) : Rat :=
  max (blendedForecast rexp arima dailyDrift currentPrice forecastDays t)
    (currentPrice * (5/100))

/-- The returned point-forecast array (`forecast_mean` as returned, one
entry per forecast day). -/
def pointForecastList (rexp : Rat → Rat) (arima : Nat → Rat)
    (dailyDrift currentPrice : Rat) (forecastDays : Nat) : List Rat :=
  (List.range forecastDays).map
    (pointForecast rexp arima dailyDrift currentPrice forecastDays)

/-- The raw ARIMA forecast as an array, for comparison with the returned
one. -/
def arimaForecastList (arima : Nat → Rat) (forecastDays : Nat) : List Rat :=
  (List.range forecastDays).map arima

/-- `time_factor = np.log1p(np.arange(1, forecast_days+1)) / np.log1p(30)`;
position `t` (0-based) holds `log1p(t+1) / log1p(30)`. -/
def timeFactor (rlog1p : Rat → Rat) (t : Nat) : Rat :=
  rlog1p ((t : Rat) + 1) / rlog1p 30

/-- `ci_margin = 1.96 * std_err * (1 + time_factor * daily_volatility *
np.sqrt(252))`. -/
def ciMarginBase (rlog1p : Rat → Rat) (stdErr vol sqrt252 : Rat) (t : Nat) :
    Rat :=
  (196/100) * stdErr * (1 + timeFactor rlog1p t * vol * sqrt252)

/-- `ci_margin` after the long-horizon addition: for horizons over 365
days, `(forecast_days/365) * 0.1 * current_price` scaled by
`time_factor / time_factor[-1]` is added. -/
def ciMargin (rlog1p : Rat → Rat) (stdErr vol sqrt252 currentPrice : Rat)
    (forecastDays : Nat) (t : Nat) : Rat :=
  if 365 < forecastDays then
    ciMarginBase rlog1p stdErr vol sqrt252 t +
      ((forecastDays : Rat) / 365) * (1/10) * currentPrice *
        timeFactor rlog1p t / timeFactor rlog1p (forecastDays - 1)
  else ciMarginBase rlog1p stdErr vol sqrt252 t

/-- Raw lower band `forecast_ci_lower = forecast_mean - ci_margin` (with
`m` standing for the pre-clamp `forecast_mean` array). -/
def ciLower (rlog1p : Rat → Rat) (m : Nat → Rat)
    (stdErr vol sqrt252 currentPrice : Rat) (forecastDays t : Nat) : Rat :=
  m t - ciMargin rlog1p stdErr vol sqrt252 currentPrice forecastDays t

/-- Upper band `forecast_ci_upper = forecast_mean + ci_margin` (never
clamped). -/
def ciUpper (rlog1p : Rat → Rat) (m : Nat → Rat)
    (stdErr vol sqrt252 currentPrice : Rat) (forecastDays t : Nat) : Rat :=
  m t + ciMargin rlog1p stdErr vol sqrt252 currentPrice forecastDays t

/-- `forecast_ci_lower = np.maximum(forecast_ci_lower, current_price *
0.01)`. -/
def ciLowerClamped (rlog1p : Rat → Rat) (m : Nat → Rat)
    (stdErr vol sqrt252 currentPrice : Rat) (forecastDays t : Nat) : Rat :=
  max (ciLower rlog1p m stdErr vol sqrt252 currentPrice forecastDays t)
    (currentPrice * (1/100))

/-- Width of the returned confidence band at position `t`: upper bound
minus (clamped) lower bound.  (The separate 5%-clamp on the point forecast
happens after the band is built and does not change the band.) -/
def bandWidth (rlog1p : Rat → Rat) (m : Nat → Rat)
    (stdErr vol sqrt252 currentPrice : Rat) (forecastDays t : Nat) : Rat :=
  ciUpper rlog1p m stdErr vol sqrt252 currentPrice forecastDays t -
    ciLowerClamped rlog1p m stdErr vol sqrt252 currentPrice forecastDays t

/-! ## Monte-Carlo simulator (`analyze_monte_carlo`), steps 3–4 -/

/-- The global numpy RNG state: the last seed set and how many standard
normal variates have been drawn since. -/
structure RNGState where
  seed    : Nat
  counter : Nat
deriving DecidableEq, Repr

/-- `np.random.seed(n)`: reset the global stream. -/
def npRandomSeed (n : Nat) : RNGState := ⟨n, 0⟩

/-- Path value of simulation row `i` at day `t`:
`simulations[:, 0] = current_price` and
`simulations[:, t] = simulations[:, t-1] * np.exp((mu - 0.5*sigma**2)*dt +
sigma*np.sqrt(dt)*Z)` with `dt = 1`.  The loop draws `num_simulations`
variates per day, so row `i` at day `t` consumes the variate with stream
index `(t-1)*num_simulations + i` of the seeded generator (`gauss seed k`
is the `k`-th standard-normal variate of the stream seeded with `seed`). -/
def mcPathEntry (gauss : Nat → Nat → Rat) (rexp : Rat → Rat)
    (mu sigma currentPrice : Rat) (numSims : Nat) (seed : Nat) (i : Nat) :
    Nat → Rat
  | 0 => currentPrice
  | t + 1 =>
      mcPathEntry gauss rexp mu sigma currentPrice numSims seed i t *
        rexp ((mu - (1/2) * sigma ^ 2) * 1 +
          sigma * 1 * gauss seed (t * numSims + i))

/-- The simulation step of `analyze_monte_carlo`: takes the incoming
global RNG state, immediately overwrites it via `np.random.seed(42)`,
builds the `[num_simulations, forecast_days+1]` path matrix and returns it
with the advanced RNG state. -/
def analyzeMonteCarloPaths (gauss : Nat → Nat → Rat) (rexp : Rat → Rat)
    (mu sigma currentPrice : Rat) (numSims forecastDays : Nat)
    (s0 : RNGState) : List (List Rat) × RNGState :=
  let s1 := npRandomSeed 42
  let paths := (List.range numSims).map fun i =>
    (List.range (forecastDays + 1)).map
      (mcPathEntry gauss rexp mu sigma currentPrice numSims s1.seed i)
  (paths, ⟨s1.seed, s1.counter + forecastDays * numSims⟩)

/-- Accepted-items invariant: every accepted item is at least as recent as
the cutoff. -/
def DatesOK (cutoff : Int) (st : FetchState) : Prop :=
  ∀ n ∈ st.acc, cutoff ≤ n.date

/-- Deduplication invariant: every accepted item's title hash has been
registered, and no two accepted items share a title hash. -/
def HashOK (st : FetchState) : Prop :=
  (∀ n ∈ st.acc, titleHash n.title ∈ st.seen) ∧
    st.acc.Pairwise fun a b => titleHash a.title ≠ titleHash b.title

/-! ## Helper lemmas -/

theorem foldl_preserve {α β : Type} (P : β → Prop) (f : β → α → β)
    (hf : ∀ b a, P b → P (f b a)) :
    ∀ (l : List α) (b : β), P b → P (l.foldl f b) := by
  intro l
  induction l with
  | nil => intro b hb; exact hb
  | cons a l ih => intro b hb; exact ih (f b a) (hf b a hb)

theorem insertDesc_perm (x : NewsItem) (l : List NewsItem) :
    (insertDesc x l).Perm (x :: l) := by
  induction l with
  | nil => simp [insertDesc]
  | cons y ys ih =>
      by_cases h : x.date < y.date
      · simpa [insertDesc, h] using
          ((ih.cons y).trans (List.Perm.swap x y ys))
      · simp [insertDesc, h]

theorem sortByDateDesc_perm (l : List NewsItem) :
    (sortByDateDesc l).Perm l := by
  induction l with
  | nil => simp [sortByDateDesc]
  | cons x xs ih =>
      have : sortByDateDesc (x :: xs) = insertDesc x (sortByDateDesc xs) := rfl
      rw [this]
      exact (insertDesc_perm x (sortByDateDesc xs)).trans (ih.cons x)

theorem datesOK_templated (score : String → Rat) (cutoff : Int)
    (st : FetchState) (it : FeedItem) (h : DatesOK cutoff st) :
    DatesOK cutoff (processTemplatedItem score cutoff st it) := by
  unfold processTemplatedItem
  by_cases h1 : it.title.length < 10
  · simpa [h1] using h
  · by_cases h2 : titleHash it.title ∈ st.seen
    · simpa [h1, h2] using h
    · by_cases h3 : it.date < cutoff
      · simpa [h1, h2, h3] using h
      · simp only [h1, h2, h3, if_neg, if_pos, ite_false, ite_true]
        intro n hn
        rcases List.mem_append.1 hn with hn | hn
        · exact h n hn
        · rcases List.mem_singleton.1 hn with rfl
          exact le_of_not_lt h3

theorem datesOK_static (score : String → Rat) (terms : List String)
    (cutoff : Int) (st : FetchState) (it : FeedItem) (h : DatesOK cutoff st) :
    DatesOK cutoff (processStaticItem score terms cutoff st it) := by
  unfold processStaticItem
  by_cases h1 : it.title = ""
  · simpa [h1] using h
  · cases hrel : (terms.any fun t => containsSub it.title.toUpper t) with
    | false => simpa [h1, hrel] using h
    | true =>
      by_cases h2 : titleHash it.title ∈ st.seen
      · simpa [h1, hrel, h2] using h
      · by_cases h3 : it.date < cutoff
        · simpa [h1, hrel, h2, h3] using h
        · simp only [h1, hrel, h2, h3, if_neg, if_pos, ite_false, ite_true,
            Bool.not_true, not_false_iff]
          intro n hn
          rcases List.mem_append.1 hn with hn | hn
          · exact h n hn
          · rcases List.mem_singleton.1 hn with rfl
            exact le_of_not_lt h3

theorem datesOK_fetchAccum (score : String → Rat) (cutoff : Int)
    (templated statics : List (List FeedItem)) (terms : List String) :
    DatesOK cutoff (fetchAccum score cutoff templated statics terms) := by
  unfold fetchAccum
  apply foldl_preserve (DatesOK cutoff)
  · intro st items hst
    exact foldl_preserve (DatesOK cutoff) _
      (fun b a hb => datesOK_static score terms cutoff b a hb) items st hst
  · apply foldl_preserve (DatesOK cutoff)
    · intro st items hst
      exact foldl_preserve (DatesOK cutoff) _
        (fun b a hb => datesOK_templated score cutoff b a hb) items st hst
    · intro n hn
      simp at hn

theorem hashOK_append (st : FetchState) (it : FeedItem) (score : Rat)
    (h : HashOK st) (hnot : titleHash it.title ∉ st.seen) :
    HashOK ⟨titleHash it.title :: st.seen,
      st.acc ++ [{ title := it.title, date := it.date, score := score }]⟩ := by
  constructor
  · intro n hn
    rcases List.mem_append.1 hn with hn | hn
    · exact List.mem_cons_of_mem _ (h.1 n hn)
    · rcases List.mem_singleton.1 hn with rfl
      exact List.mem_cons_self _ _
  · refine List.pairwise_append.2 ⟨h.2, List.pairwise_singleton _ _, ?_⟩
    intro a ha b hb
    rcases List.mem_singleton.1 hb with rfl
    intro heq
    exact hnot (heq ▸ h.1 a ha)

theorem hashOK_grow (st : FetchState) (s : String) (h : HashOK st) :
    HashOK ⟨s :: st.seen, st.acc⟩ :=
  ⟨fun n hn => List.mem_cons_of_mem _ (h.1 n hn), h.2⟩

theorem hashOK_templated (score : String → Rat) (cutoff : Int)
    (st : FetchState) (it : FeedItem) (h : HashOK st) :
    HashOK (processTemplatedItem score cutoff st it) := by
  unfold processTemplatedItem
  by_cases h1 : it.title.length < 10
  · simpa [h1] using h
  · by_cases h2 : titleHash it.title ∈ st.seen
    · simpa [h1, h2] using h
    · by_cases h3 : it.date < cutoff
      · simpa [h1, h2, h3] using hashOK_grow st (titleHash it.title) h
      · simpa [h1, h2, h3] using
          hashOK_append st it (score it.title) h h2

theorem hashOK_static (score : String → Rat) (terms : List String)
    (cutoff : Int) (st : FetchState) (it : FeedItem) (h : HashOK st) :
    HashOK (processStaticItem score terms cutoff st it) := by
  unfold processStaticItem
  by_cases h1 : it.title = ""
  · simpa [h1] using h
  · cases hrel : (terms.any fun t => containsSub it.title.toUpper t) with
    | false => simpa [h1, hrel] using h
    | true =>
      by_cases h2 : titleHash it.title ∈ st.seen
      · simpa [h1, hrel, h2] using h
      · by_cases h3 : it.date < cutoff
        · simpa [h1, hrel, h2, h3] using hashOK_grow st (titleHash it.title) h
        · simpa [h1, hrel, h2, h3] using
            hashOK_append st it (score it.title) h h2

theorem hashOK_fetchAccum (score : String → Rat) (cutoff : Int)
    (templated statics : List (List FeedItem)) (terms : List String) :
    HashOK (fetchAccum score cutoff templated statics terms) := by
  unfold fetchAccum
  apply foldl_preserve HashOK
  · intro st items hst
    exact foldl_preserve HashOK _
      (fun b a hb => hashOK_static score terms cutoff b a hb) items st hst
  · apply foldl_preserve HashOK
    · intro st items hst
      exact foldl_preserve HashOK _
        (fun b a hb => hashOK_templated score cutoff b a hb) items st hst
    · exact ⟨fun n hn => by simp at hn, List.Pairwise.nil⟩

theorem pairwise_filter_length_le_one {α : Type} (R : α → α → Prop)
    (p : α → Bool) (l : List α) (hl : l.Pairwise R)
    (h : ∀ a b, p a = true → p b = true → ¬ R a b) :
    (l.filter p).length ≤ 1 := by
  induction l with
  | nil => simp
  | cons x xs ih =>
      rcases List.pairwise_cons.1 hl with ⟨hx, hxs⟩
      by_cases hp : p x = true
      · have hemp : xs.filter p = [] := by
          rw [List.eq_nil_iff_forall_not_mem]
          intro y hy
          rcases List.mem_filter.1 hy with ⟨hymem, hpy⟩
          exact h x y hp hpy (hx y hymem)
        simp [List.filter_cons, hp, hemp]
      · have hp' : p x = false := by
          cases hpx : p x
          · rfl
          · exact absurd hpx hp
        simpa [List.filter_cons, hp'] using ih hxs

/-! ## Claim theorems: news aggregation -/

/-- C3: for every symbol, period and limit, `fetch_news_from_feeds`
returns at most `limit` items, and every returned item's publish date is
at least `now − period_to_days(period)` (the cutoff from
`get_cutoff_date`). -/
theorem news_within_limit_and_cutoff
    (score : String → Rat) (now : Int) (period : String) (newsLimit : Nat)
    (templated statics : List (List FeedItem)) (terms : List String) :
    (fetch_news_from_feeds score now period newsLimit templated statics
        terms).length ≤ newsLimit ∧
    ∀ n ∈ fetch_news_from_feeds score now period newsLimit templated statics
        terms, now - (getCutoffDays period : Int) ≤ n.date := by
  constructor
  · unfold fetch_news_from_feeds
    rw [List.length_take]
    exact Nat.min_le_left _ _
  · intro n hn
    unfold fetch_news_from_feeds at hn
    have hsorted : n ∈ sortByDateDesc
        (fetchAccum score (get_cutoff_date now period) templated statics
          terms).acc := List.take_subset _ _ hn
    have hacc : n ∈ (fetchAccum score (get_cutoff_date now period) templated
        statics terms).acc :=
      (sortByDateDesc_perm _).mem_iff.1 hsorted
    exact datesOK_fetchAccum score (get_cutoff_date now period) templated
      statics terms n hacc

/-- C3 witness: a concrete feed input with one in-window item; the returned
list has length ≤ 100 and the member's date is on or after the cutoff. -/
theorem news_within_limit_and_cutoff_witness :
    NewsItem.mk "Duplicate headline about AAPL" 990 0 ∈
      fetch_news_from_feeds (fun _ => 0) 1000 "1mo" 100
        [[⟨"Duplicate headline about AAPL", 990⟩]] [] [] ∧
    (1000 : Int) - (getCutoffDays "1mo" : Int) ≤ 990 :=
  ⟨by decide,
    (news_within_limit_and_cutoff (fun _ => 0) 1000 "1mo" 100
      [[⟨"Duplicate headline about AAPL", 990⟩]] [] []).2
      (NewsItem.mk "Duplicate headline about AAPL" 990 0) (by decide)⟩

/-- C6 counterexample: two feed items with the same title arrive from two
different feeds, but both are older than the cutoff; the aggregated result
contains ZERO entries for that title (the claim demands exactly one). -/
theorem dedup_exactly_one_counterexample :
    fetch_news_from_feeds (fun _ => 0) 1000 "1mo" 100
        [[⟨"Duplicate headline about AAPL", 0⟩],
         [⟨"Duplicate headline about AAPL", 0⟩]] [] [] = [] ∧
    ((fetch_news_from_feeds (fun _ => 0) 1000 "1mo" 100
        [[⟨"Duplicate headline about AAPL", 0⟩],
         [⟨"Duplicate headline about AAPL", 0⟩]] [] []).filter
      fun n => decide (n.title = "Duplicate headline about AAPL")).length
      = 0 ∧
    (0 : Nat) ≠ 1 := by decide

/-- C6 amended: the aggregated result never contains TWO entries for the
same title — no two returned items share the same lowercase 60-character
title prefix, so at most one entry per title (zero is possible when every
occurrence is filtered out). -/
theorem dedup_at_most_one
    (score : String → Rat) (now : Int) (period : String) (newsLimit : Nat)
    (templated statics : List (List FeedItem)) (terms : List String) :
    (fetch_news_from_feeds score now period newsLimit templated statics
        terms).Pairwise
      (fun a b => titleHash a.title ≠ titleHash b.title) ∧
    ∀ t : String, ((fetch_news_from_feeds score now period newsLimit
        templated statics terms).filter
      fun n => decide (n.title = t)).length ≤ 1 := by
  have hacc := hashOK_fetchAccum score (get_cutoff_date now period)
    templated statics terms
  have hsorted : (sortByDateDesc
      (fetchAccum score (get_cutoff_date now period) templated statics
        terms).acc).Pairwise
      (fun a b => titleHash a.title ≠ titleHash b.title) :=
    ((sortByDateDesc_perm _).pairwise_iff
      (fun h e => h e.symm)).2 hacc.2
  have hres : (fetch_news_from_feeds score now period newsLimit templated
      statics terms).Pairwise
      (fun a b => titleHash a.title ≠ titleHash b.title) :=
    List.Pairwise.sublist (List.take_sublist _ _) hsorted
  refine ⟨hres, fun t => ?_⟩
  refine pairwise_filter_length_le_one _ _ _ hres ?_
  intro a b ha hb hR
  have ha' : a.title = t := of_decide_eq_true ha
  have hb' : b.title = t := of_decide_eq_true hb
  exact hR (by rw [ha', hb'])

/-- C10: the duplicate set is updated before the recency filter, so an
in-window item (date 990 ≥ cutoff 970) is dropped solely because an
earlier-processed item from another feed, itself older than the cutoff
(date 0) and hence excluded, already registered the same lowercase
60-character title prefix; removing the old item makes the in-window item
appear. -/
theorem dup_registered_before_recency_filter :
    get_cutoff_date 1000 "1mo" = 970 ∧
    fetch_news_from_feeds (fun _ => 0) 1000 "1mo" 100
        [[⟨"Duplicate headline about AAPL", 0⟩],
         [⟨"Duplicate headline about AAPL", 990⟩]] [] [] = [] ∧
    fetch_news_from_feeds (fun _ => 0) 1000 "1mo" 100
        [[], [⟨"Duplicate headline about AAPL", 990⟩]] [] []
      = [⟨"Duplicate headline about AAPL", 990, 0⟩] := by decide

/-! ## Claim theorems: correlation pipeline -/

/-- C7: with fewer than 5 qualifying news items, `analyze_correlation`
returns the "too few articles, try a longer period" error, and never a
success result (the only other possibility at this point is the
VADER-missing error). -/
theorem too_few_news_is_error (corrFn : List Rat → List Rat → Rat)
    (news : List NewsItem) (prices : List (Int × Rat)) (period : String)
    (h : news.length < 5) :
    analyze_correlation corrFn true news prices period
      = .error (.tooFewNews news.length) ∧
    ∀ (vader : Bool) (r : CorrResult),
      analyze_correlation corrFn vader news prices period ≠ .ok r := by
  constructor
  · simp [analyze_correlation, h]
  · intro vader r hr
    cases vader
    · simp [analyze_correlation] at hr
    · simp [analyze_correlation, h] at hr

/-- C7 witness: an empty news list (0 < 5 articles) produces exactly the
too-few-news error. -/
theorem too_few_news_is_error_witness :
    analyze_correlation (fun _ _ => 0) true [] [] "1mo"
      = .error (.tooFewNews 0) :=
  (too_few_news_is_error (fun _ _ => 0) [] [] "1mo" (by decide)).1

/-- C8 counterexample: for the unknown period code "2y" the news cutoff
uses the 30-day default of `get_cutoff_date`, but the `days_back` reported
in `analyze_correlation`'s summary stats uses a 90-day default — the two
differ. -/
theorem days_back_default_counterexample :
    getCutoffDays "2y" = 30 ∧
    (analyze_correlation (fun _ _ => 0) true
        [⟨"a", 0, 1⟩, ⟨"b", 0, 1⟩, ⟨"c", 1, 1⟩, ⟨"d", 1, 1⟩, ⟨"e", 2, 1⟩]
        [(0, 1), (1, 2)] "2y").map CorrResult.daysBack = .ok 90 ∧
    (90 : Nat) ≠ 30 := by
  refine ⟨by decide, ?_, by decide⟩
  simp [analyze_correlation, Except.map]
  decide

/-- C8 amended: for period codes present in `PERIOD_DAYS_MAP` the reported
`days_back` equals the number of days behind the cutoff; for unknown codes
the cutoff defaults to 30 days while the reported `days_back` defaults to
90, so the two disagree. -/
theorem days_back_matches_cutoff_only_in_table (period : String) :
    if (periodDaysMap.lookup period).isSome then
      correlationDaysBack period = getCutoffDays period
    else getCutoffDays period = 30 ∧ correlationDaysBack period = 90 := by
  unfold correlationDaysBack getCutoffDays
  cases h : periodDaysMap.lookup period with
  | none => simp [h]
  | some d => simp [h]

/-- The merged sentiment value at a valid index is the interpolated (then
zero-filled) value of the raw merge column at that index. -/
theorem mergedSentiment_getElem (prices sd : List (Int × Rat)) (i : Nat)
    (hi : i < (mergeSentimentColumn prices sd).length) :
    (mergedSentiment prices sd)[i]?
      = some ((interpAt (mergeSentimentColumn prices sd) i).getD 0) := by
  unfold mergedSentiment fillna0 interpolateLinear
  simp [List.getElem?_map, List.getElem?_range, hi]

theorem lt_length_of_column_isSome {xs : List (Option Rat)} {i : Nat}
    {o : Option Rat} (h : xs[i]? = some o) : i < xs.length := by
  by_contra hc
  rw [List.getElem?_eq_none (Nat.le_of_not_lt hc)] at h
  exact Option.noConfusion h

/-- C4 amended: the merged series has exactly one sentiment value per
price date (same length as the price series); a date whose sentiment is
missing is filled by linear interpolation when known values exist on both
sides, with the value 0 when no known value precedes it (leading
boundary), and with the LAST KNOWN value — not 0 — when no known value
follows it (trailing boundary); known values are kept. -/
theorem merged_series_shape (prices sd : List (Int × Rat)) :
    (mergedSentiment prices sd).length = prices.length ∧
    (∀ i : Nat, (mergeSentimentColumn prices sd)[i]? = some none →
      prevKnown (mergeSentimentColumn prices sd) i = none →
      (mergedSentiment prices sd)[i]? = some 0) ∧
    (∀ (i : Nat) (jv : Nat × Rat),
      (mergeSentimentColumn prices sd)[i]? = some none →
      prevKnown (mergeSentimentColumn prices sd) i = some jv →
      nextKnown (mergeSentimentColumn prices sd) i = none →
      (mergedSentiment prices sd)[i]? = some jv.2) ∧
    (∀ (i : Nat) (jv kv : Nat × Rat),
      (mergeSentimentColumn prices sd)[i]? = some none →
      prevKnown (mergeSentimentColumn prices sd) i = some jv →
      nextKnown (mergeSentimentColumn prices sd) i = some kv →
      (mergedSentiment prices sd)[i]? =
        some (jv.2 + (kv.2 - jv.2) * ((i : Rat) - (jv.1 : Rat)) /
          ((kv.1 : Rat) - (jv.1 : Rat)))) ∧
    (∀ (i : Nat) (v : Rat),
      (mergeSentimentColumn prices sd)[i]? = some (some v) →
      (mergedSentiment prices sd)[i]? = some v) := by
  refine ⟨?_, ?_, ?_, ?_, ?_⟩
  · unfold mergedSentiment fillna0 interpolateLinear mergeSentimentColumn
    simp
  · intro i hcol hprev
    rw [mergedSentiment_getElem prices sd i (lt_length_of_column_isSome hcol)]
    simp [interpAt, hcol, hprev]
  · intro i jv hcol hprev hnext
    rw [mergedSentiment_getElem prices sd i (lt_length_of_column_isSome hcol)]
    simp [interpAt, hcol, hprev, hnext]
  · intro i jv kv hcol hprev hnext
    rw [mergedSentiment_getElem prices sd i (lt_length_of_column_isSome hcol)]
    simp [interpAt, hcol, hprev, hnext]
  · intro i v hcol
    rw [mergedSentiment_getElem prices sd i (lt_length_of_column_isSome hcol)]
    simp [interpAt, hcol]

/-- C4 amended witness: on a concrete merge column `[some 2, none, some 8,
none]`, the length is preserved, the interior gap is interpolated to 5,
the trailing gap keeps the last known value 8, and a leading gap (second
input) becomes 0. -/
theorem merged_series_shape_witness :
    (mergedSentiment [(0, 10), (1, 11), (2, 12), (3, 13)]
        [(0, 2), (2, 8)]).length = 4 ∧
    (mergedSentiment [(0, 10), (1, 11), (2, 12), (3, 13)]
        [(0, 2), (2, 8)])[1]? = some 5 ∧
    (mergedSentiment [(0, 10), (1, 11), (2, 12), (3, 13)]
        [(0, 2), (2, 8)])[3]? = some 8 ∧
    (mergedSentiment [(0, 10), (1, 11)] [(1, 4)])[0]? = some 0 := by
  refine ⟨?_, ?_, ?_, ?_⟩
  · exact (merged_series_shape [(0, 10), (1, 11), (2, 12), (3, 13)]
      [(0, 2), (2, 8)]).1
  · have := (merged_series_shape [(0, 10), (1, 11), (2, 12), (3, 13)]
      [(0, 2), (2, 8)]).2.2.2.1 1 (0, 2) (2, 8) (by decide) (by decide)
      (by decide)
    rw [this]; norm_num
  · exact (merged_series_shape [(0, 10), (1, 11), (2, 12), (3, 13)]
      [(0, 2), (2, 8)]).2.2.1 3 (2, 8) (by decide) (by decide) (by decide)
  · exact (merged_series_shape [(0, 10), (1, 11)] [(1, 4)]).2.1 0
      (by decide) (by decide)

/-- C4 counterexample: with one known sentiment on the first of three
price dates, the code's merged series is `[1, 1, 1]` (the trailing missing
values take the last known value), while the claimed
interpolate-then-zero-boundary description yields `[1, 0, 0]`. -/
theorem merged_boundary_fill_counterexample :
    mergedSentiment [(0, 10), (1, 11), (2, 12)] [(0, 1)] = [1, 1, 1] ∧
    mergedSentimentSpecZeroBoundary [(0, 10), (1, 11), (2, 12)] [(0, 1)]
      = [1, 0, 0] ∧
    ([1, 1, 1] : List Rat) ≠ [1, 0, 0] := by decide

/-! ## Claim theorems: ARIMA forecaster -/

/-- C1 counterexample: at horizon 1 (≤ 90 days) with a raw ARIMA forecast
of 1 and current price 100, the RETURNED point forecast is `[5]` — the
5%-of-current-price floor `np.maximum(forecast_mean, current_price*0.05)`
modifies the raw forecast even though the trend-blend weight is zero. -/
theorem forecast_clamp_counterexample :
    arimaForecastList (fun _ => 1) 1 = [1] ∧
    pointForecastList (fun _ => 1) (fun _ => 1) 0 100 1 = [5] ∧
    ([5] : List Rat) ≠ [1] := by
  refine ⟨by decide, ?_, by decide⟩
  simp [pointForecastList, pointForecast, blendedForecast, List.range_succ]
  norm_num [max_def]

/-- C1 amended: for horizons of at most 90 days the trend-blend step is
the identity (weight zero), so the returned point forecast equals the raw
ARIMA forecast at every step where that raw value is at least 5% of the
current price (the final clamp is a no-op there); and at the 1825-day
horizon the blend weight is exactly 0.7 = min(0.7, 1825/1825). -/
theorem short_horizon_blend_identity (rexp : Rat → Rat) (arima : Nat → Rat)
    (dailyDrift currentPrice : Rat) (forecastDays : Nat)
    (hshort : forecastDays ≤ 90) :
    (∀ t, blendedForecast rexp arima dailyDrift currentPrice forecastDays t
      = arima t) ∧
    (∀ t, currentPrice * (5/100) ≤ arima t →
      pointForecast rexp arima dailyDrift currentPrice forecastDays t
        = arima t) ∧
    trendWeight 1825 = 7/10 := by
  have hnot : ¬ (90 < forecastDays) := not_lt.2 hshort
  refine ⟨fun t => by simp [blendedForecast, hnot], fun t ht => ?_, ?_⟩
  · simp [pointForecast, blendedForecast, hnot]
    exact ht
  · norm_num [trendWeight, min_def]

/-- C1 amended witness: horizon 30 ≤ 90, raw forecast 10 ≥ 5% of price
100, so blend and clamp both leave the value 10 unchanged; and the
1825-day weight is 0.7. -/
theorem short_horizon_blend_identity_witness :
    blendedForecast (fun _ => 1) (fun _ => 10) 0 100 30 0 = 10 ∧
    pointForecast (fun _ => 1) (fun _ => 10) 0 100 30 0 = 10 ∧
    trendWeight 1825 = 7/10 :=
  ⟨(short_horizon_blend_identity (fun _ => 1) (fun _ => 10) 0 100 30
      (by norm_num)).1 0,
   (short_horizon_blend_identity (fun _ => 1) (fun _ => 10) 0 100 30
      (by norm_num)).2.1 0 (by norm_num),
   (short_horizon_blend_identity (fun _ => 1) (fun _ => 10) 0 100 30
      (by norm_num)).2.2⟩

/-- Robustness of the C5 counterexample: for ANY value of the `np.log1p`
parameter, with residual std 1, volatility 0, current price 100 and a
point forecast that drops from 100 to 1, the band width shrinks from 3.92
to 1.96 because the 1%-of-price clamp cuts into the lower bound
(volatility 0 makes the time factor irrelevant). -/
theorem bandWidth_decreases_after_clamp (rlog1p : Rat → Rat) :
    bandWidth rlog1p (fun t => if t = 0 then 100 else 1) 1 0 0 100 2 1
      < bandWidth rlog1p (fun t => if t = 0 then 100 else 1) 1 0 0 100 2 0 := by
  simp [bandWidth, ciUpper, ciLowerClamped, ciLower, ciMargin, ciMarginBase]
  norm_num [max_def]

/-- C5 counterexample: the width of the returned band is NOT monotone in
the step index — at step 0 it is 3.92, at step 1 only 1.96, because the
point forecast drops and the lower-bound clamp (1% of current price)
becomes active. -/
theorem band_width_monotone_counterexample :
    bandWidth (fun x => x) (fun t => if t = 0 then 100 else 1) 1 0 0 100 2 1
      < bandWidth (fun x => x) (fun t => if t = 0 then 100 else 1) 1 0 0 100
        2 0 :=
  bandWidth_decreases_after_clamp (fun x => x)

/-- C5 amended: for fixed model parameters (residual std ≥ 0, daily
volatility ≥ 0, current price ≥ 0), with `np.log1p` monotone and
nonnegative on nonnegative arguments and positive at 30, the band width is
monotonically non-decreasing in the step index PROVIDED the 1%-of-price
lower-bound clamp is never active (then the width is twice the margin,
which grows with the logarithmic time factor). -/
theorem band_width_monotone_without_clamp
    (rlog1p : Rat → Rat) (m : Nat → Rat) (stdErr vol sqrt252 cp : Rat)
    (forecastDays : Nat)
    (hse : 0 ≤ stdErr) (hv : 0 ≤ vol) (hs : 0 ≤ sqrt252) (hcp : 0 ≤ cp)
    (hmono : ∀ x y : Rat, 0 ≤ x → x ≤ y → rlog1p x ≤ rlog1p y)
    (hnn : ∀ x : Rat, 0 ≤ x → 0 ≤ rlog1p x)
    (h30 : 0 < rlog1p 30)
    (hcl : ∀ t, t < forecastDays → cp * (1/100) ≤
      ciLower rlog1p m stdErr vol sqrt252 cp forecastDays t) :
    ∀ t, t + 1 < forecastDays →
      bandWidth rlog1p m stdErr vol sqrt252 cp forecastDays t ≤
        bandWidth rlog1p m stdErr vol sqrt252 cp forecastDays (t + 1) := by
  have htf_nonneg : ∀ u : Nat, 0 ≤ timeFactor rlog1p u := by
    intro u
    exact div_nonneg (hnn _ (by positivity)) (le_of_lt h30)
  have htf_mono : ∀ u : Nat, timeFactor rlog1p u ≤ timeFactor rlog1p (u + 1) := by
    intro u
    unfold timeFactor
    refine (div_le_div_iff_of_pos_right h30).2 ?_
    refine hmono _ _ (by positivity) ?_
    push_cast
    linarith
  have hmargin : ∀ u : Nat,
      ciMargin rlog1p stdErr vol sqrt252 cp forecastDays u ≤
        ciMargin rlog1p stdErr vol sqrt252 cp forecastDays (u + 1) := by
    intro u
    have hbase : ciMarginBase rlog1p stdErr vol sqrt252 u ≤
        ciMarginBase rlog1p stdErr vol sqrt252 (u + 1) := by
      unfold ciMarginBase
      have h1 : timeFactor rlog1p u * vol ≤ timeFactor rlog1p (u + 1) * vol :=
        mul_le_mul_of_nonneg_right (htf_mono u) hv
      have h2 : timeFactor rlog1p u * vol * sqrt252 ≤
          timeFactor rlog1p (u + 1) * vol * sqrt252 :=
        mul_le_mul_of_nonneg_right h1 hs
      have h3 : (0 : Rat) ≤ (196 / 100) * stdErr :=
        mul_nonneg (by norm_num) hse
      nlinarith
    unfold ciMargin
    by_cases h365 : 365 < forecastDays
    · simp only [h365, if_true]
      have hK : (0 : Rat) ≤ ((forecastDays : Rat) / 365) * (1 / 10) * cp :=
        mul_nonneg (mul_nonneg (by positivity) (by norm_num)) hcp
      have hlast := htf_nonneg (forecastDays - 1)
      rcases eq_or_lt_of_le hlast with hz | hz
      · rw [← hz]
        simp only [div_zero]
        linarith
      · have hdiv : ((forecastDays : Rat) / 365) * (1 / 10) * cp *
            timeFactor rlog1p u / timeFactor rlog1p (forecastDays - 1) ≤
            ((forecastDays : Rat) / 365) * (1 / 10) * cp *
            timeFactor rlog1p (u + 1) / timeFactor rlog1p (forecastDays - 1) := by
          refine (div_le_div_iff_of_pos_right hz).2 ?_
          exact mul_le_mul_of_nonneg_left (htf_mono u) hK
        linarith
    · simp only [h365, if_false]
      exact hbase
  intro t ht
  have hc0 : cp * (1/100) ≤
      ciLower rlog1p m stdErr vol sqrt252 cp forecastDays t :=
    hcl t (by omega)
  have hc1 : cp * (1/100) ≤
      ciLower rlog1p m stdErr vol sqrt252 cp forecastDays (t + 1) :=
    hcl (t + 1) ht
  unfold bandWidth ciUpper ciLowerClamped
  rw [max_eq_left hc0, max_eq_left hc1]
  unfold ciLower
  have := hmargin t
  linarith

/-- C5 amended witness: a concrete instantiation (log1p stand-in `id`,
constant forecast 1000, std 1, vol 1, √252 stand-in 1, price 1, horizon 2)
where the clamp is inactive and the width at step 0 is at most the width
at step 1. -/
theorem band_width_monotone_without_clamp_witness :
    bandWidth (fun x => x) (fun _ => 1000) 1 1 1 1 2 0 ≤
      bandWidth (fun x => x) (fun _ => 1000) 1 1 1 1 2 1 :=
  band_width_monotone_without_clamp (fun x => x) (fun _ => 1000) 1 1 1 1 2
    (by norm_num) (by norm_num) (by norm_num) (by norm_num)
    (fun _ _ _ h => h) (fun _ h => h) (by norm_num)
    (by
      intro t ht
      interval_cases t <;>
        norm_num [ciLower, ciMargin, ciMarginBase, timeFactor])
    0 (by norm_num)

/-! ## Claim theorems: Monte-Carlo simulator -/

/-- C2: `analyze_monte_carlo` is deterministic in its inputs — whatever
the incoming global RNG state is, the path matrix is the same, because
`np.random.seed(42)` reinitializes the generator before the simulation
loop on every call. -/
theorem monte_carlo_deterministic (gauss : Nat → Nat → Rat)
    (rexp : Rat → Rat) (mu sigma currentPrice : Rat)
    (numSims forecastDays : Nat) (s1 s2 : RNGState) :
    (analyzeMonteCarloPaths gauss rexp mu sigma currentPrice numSims
      forecastDays s1).1 =
    (analyzeMonteCarloPaths gauss rexp mu sigma currentPrice numSims
      forecastDays s2).1 := rfl

/-- C9: the simulation matrix has `num_simulations` rows, each row has
`forecast_days + 1` entries, and every row starts at the current price. -/
theorem monte_carlo_shape (gauss : Nat → Nat → Rat) (rexp : Rat → Rat)
    (mu sigma currentPrice : Rat) (numSims forecastDays : Nat)
    (s0 : RNGState) :
    (analyzeMonteCarloPaths gauss rexp mu sigma currentPrice numSims
      forecastDays s0).1.length = numSims ∧
    ∀ row ∈ (analyzeMonteCarloPaths gauss rexp mu sigma currentPrice numSims
      forecastDays s0).1,
      row.length = forecastDays + 1 ∧ row.head? = some currentPrice := by
  constructor
  · simp [analyzeMonteCarloPaths]
  · intro row hrow
    simp only [analyzeMonteCarloPaths, List.mem_map] at hrow
    obtain ⟨i, _, rfl⟩ := hrow
    constructor
    · simp
    · rw [List.range_succ_eq_map]
      rfl

/-- C9 witness: one simulation over zero days starting at price 5 gives
the matrix `[[5]]`; its row is a member, has length 0 + 1 and head 5. -/
theorem monte_carlo_shape_witness :
    ([5] : List Rat) ∈
      (analyzeMonteCarloPaths (fun _ _ => 0) (fun _ => 1) 0 0 5 1 0
        ⟨0, 0⟩).1 ∧
    ([5] : List Rat).length = 0 + 1 ∧
    ([5] : List Rat).head? = some 5 :=
  ⟨by decide,
    (monte_carlo_shape (fun _ _ => 0) (fun _ => 1) 0 0 5 1 0 ⟨0, 0⟩).2
      [5] (by decide)⟩

end SentimentAnalysis
